import Mathlib

/-!
Verification of the edit-action algebra of `maxwell` (`src/maxwell/actions.py`).

The Python module defines a closed hierarchy of frozen dataclasses under the
abstract base `Edit`:

* sentinels `Start` (field `bos: str = "<BOS>"`) and `End`
  (field `eos: str = "<EOS>"`), each overriding `__repr__` to return its field;
* conditional variants `ConditionalSub(new)`, `ConditionalCopy`,
  `ConditionalDel`, `ConditionalIns(new)` whose shared base method
  `conditional_counterpart` returns `self`;
* generative variants `Sub(old, new)`, `Copy(old, new)` (a subclass of `Sub`
  whose `__post_init__` raises `ValueError` when `old != new`), `Del(old)`,
  `Ins(new)`, each overriding `conditional_counterpart`.

We embed the hierarchy as one inductive type with a constructor per concrete
class, and model the CPython dataclass semantics explicitly:

* `@dataclass(eq=True)` generates `__eq__` that returns `NotImplemented`
  unless `other.__class__ is self.__class__` (so values of different concrete
  classes - including the subclass pair `Copy`/`Sub` - are never equal), and
  otherwise compares the tuples of field values; `pyEq` mirrors this.
* `@dataclass(frozen=True, eq=True)` generates `__hash__` as the hash of the
  tuple of field values, with no class tag; `fieldTuple`/`pyHash` mirror this.
* `frozen=True` generates `__setattr__` that raises `FrozenInstanceError` on
  any field assignment; `setattrFrozen` mirrors this.
* `str(...)` falls back to `__repr__`; `pyStr` mirrors the two overridden
  sentinel reprs and the dataclass-generated reprs of the other classes.

Payload symbols are `Any`-typed opaque atoms in Python; we take them from an
arbitrary type `α` with decidable equality.
-/

namespace Maxwell

/-- One constructor per concrete Python class of `actions.py`.  `α` is the
type of the `Any`-typed payload symbols.  `Start.bos` and `End.eos` are `str`
fields with defaults `"<BOS>"` / `"<EOS>"` in the source, hence the `String`
arguments here. -/
inductive Edit (α : Type) where
  | Start (bos : String)
  | End (eos : String)
  | ConditionalSub (new : α)
  | ConditionalCopy
  | ConditionalDel
  | ConditionalIns (new : α)
  | Sub (old : α) (new : α)
  | Copy (old : α) (new : α)
  | Del (old : α)
  | Ins (new : α)
  deriving DecidableEq

variable {α : Type}

/-- Default-constructed `Start()`, using the field default of the source:
`bos: str = "<BOS>"`. -/
def startDefault : Edit α := .Start "<BOS>"

/-- Default-constructed `End()`, using the field default of the source:
`eos: str = "<EOS>"`. -/
def endDefault : Edit α := .End "<EOS>"

/-- Python `==` on edit values.  A dataclass with `eq=True` compares the
tuples of field values when `other.__class__ is self.__class__` and otherwise
returns `NotImplemented`; after both reflected attempts fail, CPython falls
back to identity, which is `False` for two distinct objects.  So two edit
values are `==` exactly when they are of the same concrete class with equal
fields.  `Copy` being a subclass of `Sub` does not change this: the generated
`__eq__` tests exact class identity, not `isinstance`. -/
def pyEq [DecidableEq α] : Edit α → Edit α → Bool
  | .Start b₁, .Start b₂ => decide (b₁ = b₂)
  | .End e₁, .End e₂ => decide (e₁ = e₂)
  | .ConditionalSub n₁, .ConditionalSub n₂ => decide (n₁ = n₂)
  | .ConditionalCopy, .ConditionalCopy => true
  | .ConditionalDel, .ConditionalDel => true
  | .ConditionalIns n₁, .ConditionalIns n₂ => decide (n₁ = n₂)
  | .Sub o₁ n₁, .Sub o₂ n₂ => decide (o₁ = o₂) && decide (n₁ = n₂)
  | .Copy o₁ n₁, .Copy o₂ n₂ => decide (o₁ = o₂) && decide (n₁ = n₂)
  | .Del o₁, .Del o₂ => decide (o₁ = o₂)
  | .Ins n₁, .Ins n₂ => decide (n₁ = n₂)
  | _, _ => false

/-- A field value of an edit: either a `str` field (`bos`/`eos`) or an
`Any`-typed payload symbol. -/
inductive Atom (α : Type) where
  | str (s : String)
  | sym (a : α)
  deriving DecidableEq

/-- The tuple of field values of an edit, in declaration order - exactly the
tuple CPython's generated `__hash__` hashes, and the one its generated
`__eq__` compares.  Note it carries no class tag: `Sub(x, y)` and
`Copy(x, y)` have equal field tuples (and hence equal Python hashes) while
remaining unequal under `pyEq`. -/
def fieldTuple : Edit α → List (Atom α)
  | .Start b => [.str b]
  | .End e => [.str e]
  | .ConditionalSub n => [.sym n]
  | .ConditionalCopy => []
  | .ConditionalDel => []
  | .ConditionalIns n => [.sym n]
  | .Sub o n => [.sym o, .sym n]
  | .Copy o n => [.sym o, .sym n]
  | .Del o => [.sym o]
  | .Ins n => [.sym n]

/-- Python `hash(e)`: the generated `__hash__` of a
`@dataclass(frozen=True, eq=True)` returns `hash((f₁, ..., fₙ))` over the
field values.  We abstract CPython's tuple hash as an arbitrary function `h`
of the field tuple, so theorems about `pyHash` hold for the real tuple hash
in particular. -/
def pyHash (h : List (Atom α) → Nat) (e : Edit α) : Nat :=
  h (fieldTuple e)

/-- Python `str(e)` (falling back to `__repr__`): `Start.__repr__` returns
`self.bos`, `End.__repr__` returns `self.eos`; all other classes use the
dataclass-generated `ClassName(field=repr, ...)` form, with `ra` standing for
the repr of a payload atom. -/
def pyStr (ra : α → String) : Edit α → String
  | .Start b => b
  | .End e => e
  | .ConditionalSub n => "ConditionalSub(new=" ++ ra n ++ ")"
  | .ConditionalCopy => "ConditionalCopy()"
  | .ConditionalDel => "ConditionalDel()"
  | .ConditionalIns n => "ConditionalIns(new=" ++ ra n ++ ")"
  | .Sub o n => "Sub(old=" ++ ra o ++ ", new=" ++ ra n ++ ")"
  | .Copy o n => "Copy(old=" ++ ra o ++ ", new=" ++ ra n ++ ")"
  | .Del o => "Del(old=" ++ ra o ++ ")"
  | .Ins n => "Ins(new=" ++ ra n ++ ")"

/-- True exactly for instances of the sentinel classes `Start` / `End`. -/
def isSentinel : Edit α → Bool
  | .Start _ => true
  | .End _ => true
  | _ => false

/-- True exactly for instances of the four `ConditionalEdit` subclasses. -/
def isConditionalEdit : Edit α → Bool
  | .ConditionalSub _ => true
  | .ConditionalCopy => true
  | .ConditionalDel => true
  | .ConditionalIns _ => true
  | _ => false

/-- True exactly for instances of the four `GenerativeEdit` subclasses
(`Copy` included: it subclasses `Sub`, which subclasses `GenerativeEdit`). -/
def isGenerativeEdit : Edit α → Bool
  | .Sub _ _ => true
  | .Copy _ _ => true
  | .Del _ => true
  | .Ins _ => true
  | _ => false

/-- Method call `e.conditional_counterpart()`.  The four `ConditionalEdit` subclasses
inherit the base implementation `return self`; each concrete
`GenerativeEdit` subclass overrides the abstract method (`Sub` returns
`ConditionalSub(self.new)`, `Copy` returns `ConditionalCopy()`, `Del` returns
`ConditionalDel()`, `Ins` returns `ConditionalIns(self.new)`), so the
`raise NotImplementedError` body of the abstract method has no reachable
dispatch target.  The base `Edit` class has no such method at all, so the
call on a sentinel is an `AttributeError`: we return `none` there. -/
def conditional_counterpart : Edit α → Option (Edit α)
  | .Start _ => none
  | .End _ => none
  | .ConditionalSub n => some (.ConditionalSub n)
  | .ConditionalCopy => some .ConditionalCopy
  | .ConditionalDel => some .ConditionalDel
  | .ConditionalIns n => some (.ConditionalIns n)
  | .Sub _ n => some (.ConditionalSub n)
  | .Copy _ _ => some .ConditionalCopy
  | .Del _ => some .ConditionalDel
  | .Ins n => some (.ConditionalIns n)

/-- Constructing `Copy(old, new)`: the generated `__init__` stores the fields
and then runs `__post_init__`, which raises
`ValueError(f"Copy: old={self.old} != new={self.new}")` when
`self.old != self.new`; otherwise the instance is produced.  `ra` stands for
Python string formatting of a payload atom. -/
def mkCopy [DecidableEq α] (ra : α → String) (old : α) (new : α) :
    Except String (Edit α) :=
  if old = new then Except.ok (.Copy old new)
  else Except.error ("Copy: old=" ++ ra old ++ " != new=" ++ ra new)

/-- Constructing `Sub(old, new)`: the dataclass has no `__post_init__` and no
validation, so construction always succeeds, for equal payloads included. -/
def mkSub (old : α) (new : α) : Except String (Edit α) :=
  Except.ok (.Sub old new)

/-- Attribute assignment `e.fld = v` on a frozen dataclass instance: the
generated `__setattr__` raises `FrozenInstanceError` for every field name of
the class (and every edit class here is `frozen=True`), so no in-place field
assignment ever succeeds. -/
def setattrFrozen (_e : Edit α) (fld : String) (_v : Atom α) :
    Except String (Edit α) :=
  Except.error ("cannot assign to field " ++ fld)

/-- The `old` field where the class declares one (`Sub`, `Copy`, `Del`). -/
def oldField : Edit α → Option α
  | .Sub o _ => some o
  | .Copy o _ => some o
  | .Del o => some o
  | _ => none

/-- The `new` field where the class declares one
(`ConditionalSub`, `ConditionalIns`, `Sub`, `Copy`, `Ins`). -/
def newField : Edit α → Option α
  | .ConditionalSub n => some n
  | .ConditionalIns n => some n
  | .Sub _ n => some n
  | .Copy _ n => some n
  | .Ins n => some n
  | _ => none

theorem pyEq_iff_eq [DecidableEq α] (a b : Edit α) : pyEq a b = true ↔ a = b := by
  cases a <;> cases b <;> simp [pyEq]

theorem pyEq_self [DecidableEq α] (a : Edit α) : pyEq a a = true :=
  (pyEq_iff_eq a a).mpr rfl

theorem pyEq_false_of_ne [DecidableEq α] {a b : Edit α} (h : a ≠ b) :
    pyEq a b = false := by
  cases hab : pyEq a b
  · rfl
  · exact absurd ((pyEq_iff_eq a b).mp hab) h

theorem conditional_ne_generative [DecidableEq α] {c g : Edit α}
    (hc : isConditionalEdit c = true) (hg : isGenerativeEdit g = true) :
    c ≠ g := by
  cases c <;> cases g <;> simp_all [isConditionalEdit, isGenerativeEdit]

theorem sentinel_ne_nonsentinel {s e : Edit α}
    (hs : isSentinel s = true) (he : isSentinel e = false) : s ≠ e := by
  cases s <;> cases e <;> simp_all [isSentinel]

/-- C1: the generative-to-conditional mapping table is exact: for every
payload, `Sub(old, new)` maps to `ConditionalSub(new)`, `Copy(x, x)` to
`ConditionalCopy()`, `Del(old)` to `ConditionalDel()` and `Ins(new)` to
`ConditionalIns(new)`; and the results for `Copy` and `Del` carry no payload
field at all. -/
theorem generative_to_conditional_mapping_exact (α : Type) [DecidableEq α] :
    (∀ old new : α,
      conditional_counterpart (Edit.Sub old new) = some (Edit.ConditionalSub new)) ∧
    (∀ x : α, conditional_counterpart (Edit.Copy x x) = some Edit.ConditionalCopy) ∧
    (∀ old : α, conditional_counterpart (Edit.Del old) = some Edit.ConditionalDel) ∧
    (∀ new : α, conditional_counterpart (Edit.Ins new) = some (Edit.ConditionalIns new)) ∧
    fieldTuple (Edit.ConditionalCopy : Edit α) = [] ∧
    fieldTuple (Edit.ConditionalDel : Edit α) = [] :=
  ⟨fun _ _ => rfl, fun _ => rfl, fun _ => rfl, fun _ => rfl, rfl, rfl⟩

/-- C1 witness at concrete payloads. -/
theorem generative_to_conditional_mapping_exact_witness :
    conditional_counterpart (Edit.Sub "a" "b") = some (Edit.ConditionalSub "b") ∧
    conditional_counterpart (Edit.Copy "x" "x") = some (Edit.ConditionalCopy : Edit String) :=
  ⟨(generative_to_conditional_mapping_exact String).1 "a" "b",
    (generative_to_conditional_mapping_exact String).2.1 "x"⟩

/-- C2: constructing `Copy(old, new)` with `old != new` raises the
`ValueError` of `__post_init__` and never yields a value (so it is never
silently converted into a `Sub`); any successful construction has
`old == new` and produces exactly a `Copy`; constructing `Copy(x, x)`
succeeds and the result is `==` to any other `Copy(x, x)`. -/
theorem copy_construction_validated (α : Type) [DecidableEq α] (ra : α → String)
    (x y : α) (hxy : x ≠ y) :
    mkCopy ra x y = Except.error ("Copy: old=" ++ ra x ++ " != new=" ++ ra y) ∧
    (∀ e : Edit α, mkCopy ra x y ≠ Except.ok e) ∧
    (∀ z : α, mkCopy ra z z = Except.ok (Edit.Copy z z) ∧
      pyEq (Edit.Copy z z) (Edit.Copy z z) = true) ∧
    (∀ o n : α, ∀ e : Edit α, mkCopy ra o n = Except.ok e → e = Edit.Copy o n ∧ o = n) := by
  refine ⟨by simp [mkCopy, hxy], fun e h => ?_, fun z => ⟨by simp [mkCopy], pyEq_self _⟩,
    fun o n e h => ?_⟩
  · rw [mkCopy, if_neg hxy] at h
    exact nomatch h
  · by_cases hon : o = n
    · rw [mkCopy, if_pos hon] at h
      exact ⟨(Except.ok.injEq _ _ ▸ congrArg id h).symm ▸ rfl, hon⟩
    · rw [mkCopy, if_neg hon] at h
      exact nomatch h

/-- C2 witness: an unequal pair errors, an equal pair succeeds. -/
theorem copy_construction_validated_witness :
    mkCopy (fun s : String => s) "a" "b" = Except.error "Copy: old=a != new=b" ∧
    mkCopy (fun s : String => s) "a" "a" = Except.ok (Edit.Copy "a" "a") := by
  have h := copy_construction_validated String (fun s => s) "a" "b" (by decide)
  exact ⟨h.1, (h.2.2.1 "a").1⟩

/-- C3: `conditional_counterpart` is total on the concrete generative
variants: every edit of a generative class maps to some edit of a
conditional class, without reaching the `NotImplementedError` body of the
abstract method. -/
theorem conditional_counterpart_total_on_generative (α : Type) [DecidableEq α]
    (e : Edit α) (he : isGenerativeEdit e = true) :
    ∃ c : Edit α, conditional_counterpart e = some c ∧ isConditionalEdit c = true := by
  cases e <;> simp [isGenerativeEdit] at he <;> exact ⟨_, rfl, rfl⟩

/-- C3 witness at a concrete generative edit. -/
theorem conditional_counterpart_total_on_generative_witness :
    isGenerativeEdit (Edit.Sub "a" "b") = true ∧
    ∃ c : Edit String, conditional_counterpart (Edit.Sub "a" "b") = some c ∧
      isConditionalEdit c = true :=
  ⟨rfl, conditional_counterpart_total_on_generative String (Edit.Sub "a" "b") rfl⟩

/-- C4: on every conditional variant the projection returns the receiver
itself, and consequently applying `conditional_counterpart` twice to any
edit (sentinels included, where the call is undefined both times) equals
applying it once. -/
theorem conditional_counterpart_identity_on_conditional (α : Type) [DecidableEq α]
    (c : Edit α) (hc : isConditionalEdit c = true) :
    conditional_counterpart c = some c ∧
    ∀ e : Edit α,
      (conditional_counterpart e).bind conditional_counterpart = conditional_counterpart e := by
  constructor
  · cases c <;> simp_all [isConditionalEdit, conditional_counterpart]
  · intro e
    cases e <;> rfl

/-- C4 witness at a concrete conditional edit. -/
theorem conditional_counterpart_identity_on_conditional_witness :
    isConditionalEdit (Edit.ConditionalSub "z") = true ∧
    conditional_counterpart (Edit.ConditionalSub "z") = some (Edit.ConditionalSub "z") :=
  ⟨rfl, (conditional_counterpart_identity_on_conditional String (Edit.ConditionalSub "z") rfl).1⟩

/-- C5 counterexample: `Start` is a dataclass with a `bos` field (default
`"<BOS>"`), so `Start("a")` and `Start("b")` are two instances of `Start`
that are not equal - the claim "any two instances of Start are equal" fails
on the code. -/
theorem start_instances_unequal_cex :
    isSentinel (Edit.Start "a" : Edit Char) = true ∧
    isSentinel (Edit.Start "b" : Edit Char) = true ∧
    pyEq (Edit.Start "a" : Edit Char) (Edit.Start "b") = false := by
  decide

/-- C5 (amended): any two instances of `Start` with the same `bos` payload
are equal - in particular any two default-constructed `Start()` - and
likewise for `End`; `Start` and `End` instances are never equal to each
other; and the string form of `Start()` is exactly `"<BOS>"` and of `End()`
exactly `"<EOS>"`. -/
theorem sentinel_identity_amended (α : Type) [DecidableEq α] (ra : α → String) :
    (∀ b : String, pyEq (Edit.Start b : Edit α) (Edit.Start b) = true) ∧
    (∀ s : String, pyEq (Edit.End s : Edit α) (Edit.End s) = true) ∧
    pyEq (startDefault : Edit α) startDefault = true ∧
    pyEq (endDefault : Edit α) endDefault = true ∧
    (∀ b s : String, pyEq (Edit.Start b : Edit α) (Edit.End s) = false ∧
      pyEq (Edit.End s : Edit α) (Edit.Start b) = false) ∧
    pyStr ra (startDefault : Edit α) = "<BOS>" ∧
    pyStr ra (endDefault : Edit α) = "<EOS>" :=
  ⟨fun _ => pyEq_self _, fun _ => pyEq_self _, pyEq_self _, pyEq_self _,
    fun _ _ => ⟨rfl, rfl⟩, rfl, rfl⟩

/-- C5 witness at concrete sentinel values. -/
theorem sentinel_identity_amended_witness :
    pyEq (startDefault : Edit Char) startDefault = true ∧
    pyStr (fun c : Char => String.mk [c]) (startDefault : Edit Char) = "<BOS>" := by
  have h := sentinel_identity_amended Char (fun c => String.mk [c])
  exact ⟨h.2.2.1, h.2.2.2.2.2.1⟩

/-- C6: no cross-kind equality: no conditional-variant instance is `==` to
any generative-variant instance (for any payloads), and no sentinel is `==`
to any non-sentinel edit. -/
theorem no_cross_kind_equality (α : Type) [DecidableEq α]
    (c g : Edit α) (hc : isConditionalEdit c = true) (hg : isGenerativeEdit g = true) :
    pyEq c g = false ∧ pyEq g c = false ∧
    ∀ s e : Edit α, isSentinel s = true → isSentinel e = false →
      pyEq s e = false ∧ pyEq e s = false := by
  refine ⟨pyEq_false_of_ne (conditional_ne_generative hc hg),
    pyEq_false_of_ne (Ne.symm (conditional_ne_generative hc hg)), fun s e hs he => ?_⟩
  exact ⟨pyEq_false_of_ne (sentinel_ne_nonsentinel hs he),
    pyEq_false_of_ne (Ne.symm (sentinel_ne_nonsentinel hs he))⟩

/-- C6 witness at concrete edits of each kind. -/
theorem no_cross_kind_equality_witness :
    isConditionalEdit (Edit.ConditionalCopy : Edit Char) = true ∧
    isGenerativeEdit (Edit.Sub 'a' 'b' : Edit Char) = true ∧
    pyEq (Edit.ConditionalCopy : Edit Char) (Edit.Sub 'a' 'b') = false := by
  have h := no_cross_kind_equality Char Edit.ConditionalCopy (Edit.Sub 'a' 'b') rfl rfl
  exact ⟨rfl, rfl, h.1⟩

/-- C7: equality and hashing are structural: two independently constructed
`Sub` values with equal payloads are `==`, and any two `==` edits have equal
field tuples and hence equal Python hashes, for every hash function of the
field tuple - so edits work as map keys and set members. -/
theorem structural_equality_and_hash (α : Type) [DecidableEq α]
    (e₁ e₂ : Edit α) (he : pyEq e₁ e₂ = true) :
    (∀ p q : α, pyEq (Edit.Sub p q) (Edit.Sub p q) = true) ∧
    ∀ hf : List (Atom α) → Nat, pyHash hf e₁ = pyHash hf e₂ := by
  refine ⟨fun p q => pyEq_self _, fun hf => ?_⟩
  rw [(pyEq_iff_eq e₁ e₂).mp he]

/-- C7 witness at two independently written equal `Sub` values. -/
theorem structural_equality_and_hash_witness :
    pyEq (Edit.Sub "p" "q") (Edit.Sub ("p" : String) "q") = true ∧
    pyHash (fun l => l.length) (Edit.Sub "p" "q") =
      pyHash (fun l => l.length) (Edit.Sub ("p" : String) "q") := by
  have h := structural_equality_and_hash String (Edit.Sub "p" "q") (Edit.Sub "p" "q")
    (by decide)
  exact ⟨h.1 "p" "q", h.2 (fun l => l.length)⟩

/-- C8: `Sub` does not enforce `old != new`: `Sub(x, x)` constructs without
error, the result is a `Sub` and not a `Copy`, and its conditional
counterpart is `ConditionalSub(x)`, not `ConditionalCopy()`. -/
theorem sub_equal_payload_unchecked (α : Type) [DecidableEq α] (x : α) :
    mkSub x x = Except.ok (Edit.Sub x x) ∧
    isGenerativeEdit (Edit.Sub x x) = true ∧
    (Edit.Sub x x : Edit α) ≠ Edit.Copy x x ∧
    conditional_counterpart (Edit.Sub x x) = some (Edit.ConditionalSub x) ∧
    (Edit.ConditionalSub x : Edit α) ≠ Edit.ConditionalCopy := by
  refine ⟨rfl, rfl, ?_, rfl, ?_⟩ <;> intro h <;> exact nomatch h

/-- C8 witness at a concrete symbol. -/
theorem sub_equal_payload_unchecked_witness :
    mkSub ("x" : String) "x" = Except.ok (Edit.Sub "x" "x") :=
  (sub_equal_payload_unchecked String "x").1

/-- C9: edits are immutable: attribute assignment on a frozen dataclass
instance always raises `FrozenInstanceError` and never produces an updated
value, and the payload fields of a constructed edit are fixed by its
construction. -/
theorem edits_immutable (α : Type) (e : Edit α) (fld : String) (v : Atom α) :
    (∃ msg, setattrFrozen e fld v = Except.error msg) ∧
    (∀ e₂ : Edit α, setattrFrozen e fld v ≠ Except.ok e₂) ∧
    (∀ o n : α, oldField (Edit.Sub o n) = some o ∧ newField (Edit.Sub o n) = some n) := by
  refine ⟨⟨_, rfl⟩, fun e₂ h => ?_, fun o n => ⟨rfl, rfl⟩⟩
  exact nomatch h

/-- C9 witness at a concrete edit and field. -/
theorem edits_immutable_witness :
    ∃ msg, setattrFrozen (Edit.Del ("q" : String)) "old" (Atom.sym "z") =
      Except.error msg :=
  (edits_immutable String (Edit.Del "q") "old" (Atom.sym "z")).1

/-- C10: although the Python class `Copy` subclasses `Sub`, the generated
`__eq__` tests exact class identity, so `Copy(x, x)` and `Sub(x, x)` are
never `==` in either direction even though their field tuples coincide;
the two kinds stay distinguishable as map keys and set members. -/
theorem copy_not_equal_sub (α : Type) [DecidableEq α] (x : α) :
    pyEq (Edit.Copy x x) (Edit.Sub x x) = false ∧
    pyEq (Edit.Sub x x) (Edit.Copy x x) = false ∧
    fieldTuple (Edit.Copy x x) = fieldTuple (Edit.Sub x x) :=
  ⟨rfl, rfl, rfl⟩

/-- C10 witness at a concrete symbol. -/
theorem copy_not_equal_sub_witness :
    pyEq (Edit.Copy ("x" : String) "x") (Edit.Sub "x" "x") = false :=
  (copy_not_equal_sub String "x").1

end Maxwell
